import Mathlib

/-!
# Verification of the opensourceleg actuator core (`opensourceleg/hardware.py`)

A shallow embedding of the unit-conversion layer, the gain model, the
actuator mode state machine and the `DephyActpack` controller of
`src/opensourceleg/hardware.py`, together with proofs about the claims of
the specification.

Modelling conventions:
* Python floats are modelled as exact rationals (`ℚ`); every numeric literal
  of the source appears as the exact rational the decimal denotes, and
  `np.pi` is modelled by the exact value of the IEEE-754 double nearest π.
* `int(x)` (truncation toward zero) is `pyInt`.
* Device writes are recorded in a trace (`List DeviceCall`); a call either
  returns a new controller state or one of the Python exceptions the source
  can raise (`PyError`), always together with the device writes performed
  before the exception.
-/

namespace OpenSourceLeg

/-- The quantity categories of the global units dictionary `ALL_UNITS`
(hardware.py lines 42-112). -/
inductive Category
  | force | torque | stiffness | damping | length | angle | mass
  | velocity | acceleration | time | current | voltage | gravity
  deriving DecidableEq, Fintype

/-- The global units dictionary `ALL_UNITS` (hardware.py lines 42-112):
for each category, the unit-name → multiplicative-factor table, factors
relative to the canonical (default) unit of the category. -/
def ALL_UNITS : Category → List (String × ℚ)
  | .force => [("N", 1.0), ("lbf", 4.4482216152605), ("kgf", 9.80665)]
  | .torque =>
      [("N-m", 1.0), ("lbf-in", 0.1129848290276167),
       ("lbf-ft", 1.3558179483314004), ("kgf-cm", 0.0980665),
       ("kgf-m", 0.980665)]
  | .stiffness =>
      [("N/rad", 1.0), ("N/deg", 0.017453292519943295),
       ("lbf/rad", 0.224809), ("lbf/deg", 0.003490659),
       ("kgf/rad", 1.8518518518518519), ("kgf/deg", 0.031746031746031744)]
  | .damping =>
      [("N/(rad/s)", 1.0), ("N/(deg/s)", 0.017453292519943295),
       ("lbf/(rad/s)", 0.224809), ("lbf/(deg/s)", 0.003490659),
       ("kgf/(rad/s)", 1.8518518518518519),
       ("kgf/(deg/s)", 0.031746031746031744)]
  | .length => [("m", 1.0), ("cm", 0.01), ("in", 0.0254), ("ft", 0.3048)]
  | .angle => [("rad", 1.0), ("deg", 0.017453292519943295)]
  | .mass => [("kg", 1.0), ("g", 0.001), ("lb", 0.45359237)]
  | .velocity =>
      [("rad/s", 1.0), ("deg/s", 0.017453292519943295),
       ("rpm", 0.10471975511965977)]
  | .acceleration => [("rad/s^2", 1.0), ("deg/s^2", 0.017453292519943295)]
  | .time => [("s", 1.0), ("ms", 0.001), ("us", 0.000001)]
  | .current => [("mA", 1), ("A", 1000)]
  | .voltage => [("mV", 1), ("V", 1000)]
  | .gravity => [("m/s^2", 1.0), ("g", 9.80665)]

/-- A `UnitsDefinition` (hardware.py lines 115-163): the selection of one
unit name per category.  `DEFAULT_UNITS` is fully populated and
`__setitem__` only ever replaces a unit name for an existing category, so a
selection is a total map from categories to unit names. -/
structure UnitsDefinition where
  (uForce uTorque uStiffness uDamping uLength uAngle uMass : String)
  (uVelocity uAcceleration uTime uCurrent uVoltage uGravity : String)
  deriving DecidableEq

/-- Selection read `self[attribute]`: the unit name currently selected for a category. -/
def UnitsDefinition.sel (u : UnitsDefinition) : Category → String
  | .force => u.uForce
  | .torque => u.uTorque
  | .stiffness => u.uStiffness
  | .damping => u.uDamping
  | .length => u.uLength
  | .angle => u.uAngle
  | .mass => u.uMass
  | .velocity => u.uVelocity
  | .acceleration => u.uAcceleration
  | .time => u.uTime
  | .current => u.uCurrent
  | .voltage => u.uVoltage
  | .gravity => u.uGravity

/-- The `DEFAULT_UNITS` selection (hardware.py lines 166-182). -/
def DEFAULT_UNITS : UnitsDefinition :=
  { uForce := "N", uTorque := "N-m", uStiffness := "N/rad",
    uDamping := "N/(rad/s)", uLength := "m", uAngle := "rad", uMass := "kg",
    uVelocity := "rad/s", uAcceleration := "rad/s^2", uTime := "s",
    uCurrent := "mA", uVoltage := "mV", uGravity := "m/s^2" }

/-- Lookup `ALL_UNITS[attribute][unit]`: table lookup of the conversion factor;
`none` models the `KeyError` a missing name raises. -/
def unitFactor (attr : Category) (unit : String) : Option ℚ :=
  (ALL_UNITS attr).lookup unit

/-- Method `UnitsDefinition.convert_to_default_units` (hardware.py lines 139-150):
`value * ALL_UNITS[attr][self[attr]]` (attr the category). -/
def convert_to_default_units (u : UnitsDefinition) (value : ℚ)
    (attr : Category) : Option ℚ :=
  (unitFactor attr (u.sel attr)).map (fun f => value * f)

/-- Method `UnitsDefinition.convert_from_default_units` (hardware.py lines
152-163): `value / ALL_UNITS[attr][self[attr]]` (attr the category). -/
def convert_from_default_units (u : UnitsDefinition) (value : ℚ)
    (attr : Category) : Option ℚ :=
  (unitFactor attr (u.sel attr)).map (fun f => value / f)

/-! ## Hardware scale constants (hardware.py lines 29-38) -/

/-- The value `np.pi`: the IEEE-754 double nearest π, as an exact rational. -/
def np_pi : ℚ := 884279719003555 / 281474976710656

/-- Constant `MOTOR_COUNT_PER_REV = 16384`. -/
def MOTOR_COUNT_PER_REV : ℚ := 16384

/-- Constant `NM_PER_AMP = 0.1133`. -/
def NM_PER_AMP : ℚ := 0.1133

/-- Constant `NM_PER_MILLIAMP = NM_PER_AMP / 1000`. -/
def NM_PER_MILLIAMP : ℚ := NM_PER_AMP / 1000

/-- Constant `RAD_PER_COUNT = 2 * np.pi / MOTOR_COUNT_PER_REV`. -/
def RAD_PER_COUNT : ℚ := 2 * np_pi / MOTOR_COUNT_PER_REV

/-- Constant `RAD_PER_DEG = np.pi / 180`. -/
def RAD_PER_DEG : ℚ := np_pi / 180

/-- Python `int()` on a (rational-modelled) float: truncation toward
zero. -/
def pyInt (q : ℚ) : ℤ := q.num.tdiv q.den

/-! ## Gains (hardware.py lines 185-205) -/

/-- The `Gains` bundle of six control-loop coefficients. -/
structure Gains where
  kp : ℤ
  ki : ℤ
  kd : ℤ
  K : ℤ
  B : ℤ
  ff : ℤ
  deriving DecidableEq

def DEFAULT_POSITION_GAINS : Gains := ⟨200, 50, 0, 0, 0, 0⟩

def DEFAULT_CURRENT_GAINS : Gains := ⟨40, 400, 0, 0, 0, 128⟩

def DEFAULT_IMPEDANCE_GAINS : Gains := ⟨40, 400, 0, 300, 1600, 128⟩

/-! ## Modes, device calls, errors, controller state -/

/-- The four actuator modes.  Each corresponds to one `ActpackMode`
instance held by the controller (`self._modes`) and to one `fxe.FX_*`
protocol control-mode identifier; `ActpackMode.__eq__` compares those
identifiers, which are pairwise distinct, so equality of mode objects is
equality of these names. -/
inductive ModeName
  | VOLTAGE | POSITION | CURRENT | IMPEDANCE
  deriving DecidableEq, Fintype

/-- A write to the Device collaborator:
`send_motor_command(modeId, value)` or `set_gains(kp, ki, kd, k, b, ff)`. -/
inductive DeviceCall
  | sendMotorCommand (mode : ModeName) (value : ℤ)
  | setGainsCall (kp ki kd k b ff : ℤ)
  deriving DecidableEq

/-- Returns `true` exactly on the `set_gains` device call. -/
def DeviceCall.isGainWrite : DeviceCall → Bool
  | .setGainsCall _ _ _ _ _ _ => true
  | .sendMotorCommand _ _ => false

/-- The Python exceptions the modelled code can raise.
* `valueError`: the `raise ValueError("Cannot set ... in mode ...")`
  guards — the spec's `WrongMode`.
* `assertionError`: a failed gain-bound `assert` — the spec's
  `InvalidGains`.
* `attributeError`: attribute lookup of a method that the class of the
  (stale) active-mode object does not define.
* `typeError`: a keyword argument the target `_set_gains` does not accept.
* `keyError`: a unit-table lookup failure. -/
inductive PyError
  | valueError
  | assertionError
  | attributeError
  | typeError
  | keyError
  deriving DecidableEq

/-- The raw telemetry frame fields consumed by the modelled accessors
(`self._data`, an `ActPackState` protocol frame of integer raw values). -/
structure ActPackFrame where
  mot_ang : ℤ
  mot_cur : ℤ
  deriving DecidableEq

/-- The `_has_gains` flag of each of the four persistent mode
instances. -/
structure GainFlags where
  voltage : Bool
  position : Bool
  current : Bool
  impedance : Bool
  deriving DecidableEq

/-- The state of a `DephyActpack` controller: which mode object `_mode`
references, the `_has_gains` flag of each mode instance, the units
selection `_units`, and the latest raw frame `_data`. -/
structure ActpackState where
  mode : ModeName
  flags : GainFlags
  units : UnitsDefinition
  data : ActPackFrame
  deriving DecidableEq

/-- Flag read `ActpackMode.has_gains` of the given mode instance. -/
def ActpackState.hasGains (s : ActpackState) : ModeName → Bool
  | .VOLTAGE => s.flags.voltage
  | .POSITION => s.flags.position
  | .CURRENT => s.flags.current
  | .IMPEDANCE => s.flags.impedance

/-- Assignment `self._has_gains = True` executed on the given mode instance. -/
def setFlag (s : ActpackState) : ModeName → ActpackState
  | .VOLTAGE => { s with flags := { s.flags with voltage := true } }
  | .POSITION => { s with flags := { s.flags with position := true } }
  | .CURRENT => { s with flags := { s.flags with current := true } }
  | .IMPEDANCE => { s with flags := { s.flags with impedance := true } }

/-- The state at `DephyActpack.__init__` (lines 407-445): `_mode` is the
`VoltageMode` instance and every mode's `_has_gains` is false. -/
def initialState (u : UnitsDefinition) (frame : ActPackFrame) :
    ActpackState :=
  { mode := .VOLTAGE, flags := ⟨false, false, false, false⟩, units := u,
    data := frame }

/-- The outcome of one public call: the device writes it performed, and
either the controller state afterwards or the exception raised (writes
performed before the exception are kept in the trace). -/
structure StepResult where
  trace : List DeviceCall
  result : Except PyError ActpackState

/-! ## Mode methods (hardware.py lines 208-389) -/

/-- Method `CurrentMode._set_gains` (lines 279-291): asserts
`0 <= kp <= 80`, `0 <= ki <= 800`, `0 <= ff <= 128`, then
`set_gains(kp, ki, 0, 0, 0, ff)` and `self._has_gains = True`. -/
def currentMode_set_gains (s : ActpackState) (kp ki ff : ℤ) : StepResult :=
  if 0 ≤ kp ∧ kp ≤ 80 then
    if 0 ≤ ki ∧ ki ≤ 800 then
      if 0 ≤ ff ∧ ff ≤ 128 then
        { trace := [.setGainsCall kp ki 0 0 0 ff],
          result := .ok (setFlag s .CURRENT) }
      else { trace := [], result := .error .assertionError }
    else { trace := [], result := .error .assertionError }
  else { trace := [], result := .error .assertionError }

/-- Method `PositionMode._set_gains` (lines 323-335): asserts
`0 <= kp <= 1000`, `0 <= ki <= 1000`, `0 <= kd <= 1000`, then
`set_gains(kp, ki, kd, 0, 0, 0)` and `self._has_gains = True`. -/
def positionMode_set_gains (s : ActpackState) (kp ki kd : ℤ) : StepResult :=
  if 0 ≤ kp ∧ kp ≤ 1000 then
    if 0 ≤ ki ∧ ki ≤ 1000 then
      if 0 ≤ kd ∧ kd ≤ 1000 then
        { trace := [.setGainsCall kp ki kd 0 0 0],
          result := .ok (setFlag s .POSITION) }
      else { trace := [], result := .error .assertionError }
    else { trace := [], result := .error .assertionError }
  else { trace := [], result := .error .assertionError }

/-- Method `ImpedanceMode._set_gains` (lines 373-389): asserts
`0 <= kp <= 80`, `0 <= ki <= 800`, `0 <= ff <= 128`, `0 <= K`, `0 <= B`,
then `set_gains(kp, ki, 0, K, B, ff)` and `self._has_gains = True`. -/
def impedanceMode_set_gains (s : ActpackState) (kp ki K B ff : ℤ) :
    StepResult :=
  if 0 ≤ kp ∧ kp ≤ 80 then
    if 0 ≤ ki ∧ ki ≤ 800 then
      if 0 ≤ ff ∧ ff ≤ 128 then
        if 0 ≤ K then
          if 0 ≤ B then
            { trace := [.setGainsCall kp ki 0 K B ff],
              result := .ok (setFlag s .IMPEDANCE) }
          else { trace := [], result := .error .assertionError }
        else { trace := [], result := .error .assertionError }
      else { trace := [], result := .error .assertionError }
    else { trace := [], result := .error .assertionError }
  else { trace := [], result := .error .assertionError }

/-- Property `DephyActpack.motor_angle` (lines 654-659):
`convert_from_default_units(int(self._data.mot_ang) * RAD_PER_COUNT,
"angle")`. -/
def motor_angle (s : ActpackState) : Option ℚ :=
  convert_from_default_units s.units
    ((s.data.mot_ang : ℚ) * RAD_PER_COUNT) .angle

/-- The re-homing count sent on entering Position or Impedance mode
(lines 310-317 and 354-361):
`int(convert_to_default_units(motor_angle, "angle") / RAD_PER_COUNT)`. -/
def rehomeCommand (s : ActpackState) : Option ℤ :=
  (motor_angle s).bind (fun ma =>
    (convert_to_default_units s.units ma .angle).map
      (fun q => pyInt (q / RAD_PER_COUNT)))

/-- Method `VoltageMode._entry` (lines 250-251): a print only. -/
def voltageMode_entry (s : ActpackState) : StepResult :=
  { trace := [], result := .ok s }

/-- Method `CurrentMode._entry` (lines 270-274): apply the default current gains
when `has_gains` is false, then `_set_qaxis_current(0)`. -/
def currentMode_entry (s : ActpackState) : StepResult :=
  let r := if s.hasGains .CURRENT then ({ trace := [], result := .ok s } :
             StepResult)
           else currentMode_set_gains s DEFAULT_CURRENT_GAINS.kp
             DEFAULT_CURRENT_GAINS.ki DEFAULT_CURRENT_GAINS.ff
  match r.result with
  | .error e => { trace := r.trace, result := .error e }
  | .ok s1 =>
      { trace := r.trace ++ [.sendMotorCommand .CURRENT 0],
        result := .ok s1 }

/-- Method `PositionMode._entry` (lines 306-317): apply the default position
gains when `has_gains` is false, then command the currently measured motor
angle converted back to counts. -/
def positionMode_entry (s : ActpackState) : StepResult :=
  let r := if s.hasGains .POSITION then ({ trace := [], result := .ok s } :
             StepResult)
           else positionMode_set_gains s DEFAULT_POSITION_GAINS.kp
             DEFAULT_POSITION_GAINS.ki DEFAULT_POSITION_GAINS.kd
  match r.result with
  | .error e => { trace := r.trace, result := .error e }
  | .ok s1 =>
      match rehomeCommand s1 with
      | none => { trace := r.trace, result := .error .keyError }
      | some v =>
          { trace := r.trace ++ [.sendMotorCommand .POSITION v],
            result := .ok s1 }

/-- Method `ImpedanceMode._entry` (lines 350-361): apply the default impedance
gains when `has_gains` is false, then command the currently measured motor
angle converted back to counts. -/
def impedanceMode_entry (s : ActpackState) : StepResult :=
  let r := if s.hasGains .IMPEDANCE then ({ trace := [], result := .ok s } :
             StepResult)
           else impedanceMode_set_gains s DEFAULT_IMPEDANCE_GAINS.kp
             DEFAULT_IMPEDANCE_GAINS.ki DEFAULT_IMPEDANCE_GAINS.K
             DEFAULT_IMPEDANCE_GAINS.B DEFAULT_IMPEDANCE_GAINS.ff
  match r.result with
  | .error e => { trace := r.trace, result := .error e }
  | .ok s1 =>
      match rehomeCommand s1 with
      | none => { trace := r.trace, result := .error .keyError }
      | some v =>
          { trace := r.trace ++ [.sendMotorCommand .IMPEDANCE v],
            result := .ok s1 }

/-- Dispatch of `enter()` of the given mode instance (dispatch through
`_entry_callback`). -/
def mode_entry : ModeName → ActpackState → StepResult
  | .VOLTAGE, s => voltageMode_entry s
  | .CURRENT, s => currentMode_entry s
  | .POSITION, s => positionMode_entry s
  | .IMPEDANCE, s => impedanceMode_entry s

/-- Dispatch of `exit()` of the given mode instance.  `VoltageMode._exit` runs
`_set_qaxis_voltage(0)` (a `send_motor_command(FX_VOLTAGE, 0)`, lines
253-261); `CurrentMode._exit`, `PositionMode._exit` and
`ImpedanceMode._exit` run `send_motor_command(FX_VOLTAGE, 0)` directly
(lines 276-277, 319-321, 363-365). -/
def mode_exit : ModeName → ActpackState → StepResult
  | .VOLTAGE, s =>
      { trace := [.sendMotorCommand .VOLTAGE 0], result := .ok s }
  | .CURRENT, s =>
      { trace := [.sendMotorCommand .VOLTAGE 0], result := .ok s }
  | .POSITION, s =>
      { trace := [.sendMotorCommand .VOLTAGE 0], result := .ok s }
  | .IMPEDANCE, s =>
      { trace := [.sendMotorCommand .VOLTAGE 0], result := .ok s }

/-- Method `ActpackMode.transition` (lines 239-241): `self.exit();
to_state.enter()`.  Note that it does not touch the owning controller's
`_mode` attribute (which is assigned only in `DephyActpack.__init__`). -/
def ActpackMode_transition (s : ActpackState) (fromMode toMode : ModeName) :
    StepResult :=
  let r1 := mode_exit fromMode s
  match r1.result with
  | .error e => { trace := r1.trace, result := .error e }
  | .ok s1 =>
      let r2 := mode_entry toMode s1
      { trace := r1.trace ++ r2.trace, result := r2.result }

/-! ## Stale-mode attribute dispatch

After a forced `self._mode.transition(...)` the controller's `_mode` still
references the pre-transition mode object, and the source then calls a
method on `self._mode`.  Python resolves the attribute against the actual
class of that object: `_set_gains` exists on `CurrentMode`, `PositionMode`
and `ImpedanceMode` (with different parameter lists), `_set_qaxis_voltage`
only on `VoltageMode`, `_set_qaxis_current` only on `CurrentMode`, and
`_set_motor_angle` on `PositionMode` and `ImpedanceMode`.  A missing
attribute raises `AttributeError`; an unexpected keyword raises
`TypeError`. -/

/-- Call `self._mode._set_gains(kp=…, ki=…, ff=…)` resolved against the class
of the active-mode object (the call made by
`DephyActpack.set_current_gains`). -/
def mode_set_gains_kp_ki_ff (m : ModeName) (s : ActpackState)
    (kp ki ff : ℤ) : StepResult :=
  match m with
  | .VOLTAGE => { trace := [], result := .error .attributeError }
  | .CURRENT => currentMode_set_gains s kp ki ff
  | .POSITION => { trace := [], result := .error .typeError }
  | .IMPEDANCE =>
      impedanceMode_set_gains s kp ki DEFAULT_IMPEDANCE_GAINS.K
        DEFAULT_IMPEDANCE_GAINS.B ff

/-- Call `self._mode._set_gains(kp=…, ki=…, kd=…)` resolved against the class
of the active-mode object (the call made by
`DephyActpack.set_position_gains`). -/
def mode_set_gains_kp_ki_kd (m : ModeName) (s : ActpackState)
    (kp ki kd : ℤ) : StepResult :=
  match m with
  | .VOLTAGE => { trace := [], result := .error .attributeError }
  | .CURRENT => { trace := [], result := .error .typeError }
  | .POSITION => positionMode_set_gains s kp ki kd
  | .IMPEDANCE => { trace := [], result := .error .typeError }

/-- Call `self._mode._set_gains(kp=…, ki=…, K=…, B=…, ff=…)` resolved against
the class of the active-mode object (the call made by
`DephyActpack.set_impedance_gains`). -/
def mode_set_gains_full (m : ModeName) (s : ActpackState)
    (kp ki K B ff : ℤ) : StepResult :=
  match m with
  | .VOLTAGE => { trace := [], result := .error .attributeError }
  | .CURRENT => { trace := [], result := .error .typeError }
  | .POSITION => { trace := [], result := .error .typeError }
  | .IMPEDANCE => impedanceMode_set_gains s kp ki K B ff

/-! ## DephyActpack public setters (hardware.py lines 459-607) -/

/-- Method `DephyActpack.set_position_gains` (lines 459-478); in the source
`force` defaults to `True`. -/
def set_position_gains (s : ActpackState) (kp ki kd : ℤ) (force : Bool) :
    StepResult :=
  if s.mode = .POSITION then
    mode_set_gains_kp_ki_kd s.mode s kp ki kd
  else if force then
    let r := ActpackMode_transition s s.mode .POSITION
    match r.result with
    | .error e => { trace := r.trace, result := .error e }
    | .ok s1 =>
        let r2 := mode_set_gains_kp_ki_kd s1.mode s1 kp ki kd
        { trace := r.trace ++ r2.trace, result := r2.result }
  else { trace := [], result := .error .valueError }

/-- Method `DephyActpack.set_current_gains` (lines 480-499); in the source
`force` defaults to `True`. -/
def set_current_gains (s : ActpackState) (kp ki ff : ℤ) (force : Bool) :
    StepResult :=
  if s.mode = .CURRENT then
    mode_set_gains_kp_ki_ff s.mode s kp ki ff
  else if force then
    let r := ActpackMode_transition s s.mode .CURRENT
    match r.result with
    | .error e => { trace := r.trace, result := .error e }
    | .ok s1 =>
        let r2 := mode_set_gains_kp_ki_ff s1.mode s1 kp ki ff
        { trace := r.trace ++ r2.trace, result := r2.result }
  else { trace := [], result := .error .valueError }

/-- Method `DephyActpack.set_impedance_gains` (lines 501-524); in the source
`force` defaults to `True`. -/
def set_impedance_gains (s : ActpackState) (kp ki K B ff : ℤ)
    (force : Bool) : StepResult :=
  if s.mode = .IMPEDANCE then
    mode_set_gains_full s.mode s kp ki K B ff
  else if force then
    let r := ActpackMode_transition s s.mode .IMPEDANCE
    match r.result with
    | .error e => { trace := r.trace, result := .error e }
    | .ok s1 =>
        let r2 := mode_set_gains_full s1.mode s1 kp ki K B ff
        { trace := r.trace ++ r2.trace, result := r2.result }
  else { trace := [], result := .error .valueError }

/-- The statement `self._mode._set_qaxis_voltage(int(
convert_to_default_units(value, "voltage")))` executed on the given
active-mode object: attribute resolution first (`_set_qaxis_voltage`
exists only on `VoltageMode`), then the argument conversion, then the
device write on `self.mode = FX_VOLTAGE`. -/
def stmt_set_qaxis_voltage (s1 : ActpackState) (value : ℚ) : StepResult :=
  match s1.mode with
  | .VOLTAGE =>
      match convert_to_default_units s1.units value .voltage with
      | none => { trace := [], result := .error .keyError }
      | some q =>
          { trace := [.sendMotorCommand .VOLTAGE (pyInt q)],
            result := .ok s1 }
  | _ => { trace := [], result := .error .attributeError }

/-- Method `DephyActpack.set_q_axis_voltage` (lines 526-546). -/
def set_q_axis_voltage (s : ActpackState) (value : ℚ) (force : Bool) :
    StepResult :=
  if s.mode = .VOLTAGE then
    stmt_set_qaxis_voltage s value
  else if force then
    let r := ActpackMode_transition s s.mode .VOLTAGE
    match r.result with
    | .error e => { trace := r.trace, result := .error e }
    | .ok s1 =>
        let r2 := stmt_set_qaxis_voltage s1 value
        { trace := r.trace ++ r2.trace, result := r2.result }
  else { trace := [], result := .error .valueError }

/-- The statement `self._mode._set_qaxis_current(int(
convert_to_default_units(value, "current")))` executed on the given
active-mode object: `_set_qaxis_current` exists only on `CurrentMode` and
writes on `self.mode = FX_CURRENT`. -/
def stmt_set_qaxis_current (s1 : ActpackState) (value : ℚ) : StepResult :=
  match s1.mode with
  | .CURRENT =>
      match convert_to_default_units s1.units value .current with
      | none => { trace := [], result := .error .keyError }
      | some q =>
          { trace := [.sendMotorCommand .CURRENT (pyInt q)],
            result := .ok s1 }
  | _ => { trace := [], result := .error .attributeError }

/-- Method `DephyActpack.set_q_axis_current` (lines 548-567): guard on
`CURRENT`, then the `_set_qaxis_current` statement. -/
def set_q_axis_current (s : ActpackState) (value : ℚ) (force : Bool) :
    StepResult :=
  if s.mode = .CURRENT then
    stmt_set_qaxis_current s value
  else if force then
    let r := ActpackMode_transition s s.mode .CURRENT
    match r.result with
    | .error e => { trace := r.trace, result := .error e }
    | .ok s1 =>
        let r2 := stmt_set_qaxis_current s1 value
        { trace := r.trace ++ r2.trace, result := r2.result }
  else { trace := [], result := .error .valueError }

/-- The statement `self._mode._set_qaxis_current(int(
convert_to_default_units(torque, "torque") / NM_PER_MILLIAMP))` executed
on the given active-mode object (the body of `set_motor_torque`). -/
def stmt_set_qaxis_current_torque (s1 : ActpackState) (torque : ℚ) :
    StepResult :=
  match s1.mode with
  | .CURRENT =>
      match convert_to_default_units s1.units torque .torque with
      | none => { trace := [], result := .error .keyError }
      | some q =>
          { trace :=
              [.sendMotorCommand .CURRENT (pyInt (q / NM_PER_MILLIAMP))],
            result := .ok s1 }
  | _ => { trace := [], result := .error .attributeError }

/-- Method `DephyActpack.set_motor_torque` (lines 569-590): guard on `CURRENT`,
then the `_set_qaxis_current` statement with the torque-derived
milliamp value. -/
def set_motor_torque (s : ActpackState) (torque : ℚ) (force : Bool) :
    StepResult :=
  if s.mode = .CURRENT then
    stmt_set_qaxis_current_torque s torque
  else if force then
    let r := ActpackMode_transition s s.mode .CURRENT
    match r.result with
    | .error e => { trace := r.trace, result := .error e }
    | .ok s1 =>
        let r2 := stmt_set_qaxis_current_torque s1 torque
        { trace := r.trace ++ r2.trace, result := r2.result }
  else { trace := [], result := .error .valueError }

/-- Method `DephyActpack.set_motor_angle` (lines 592-607).  The source takes no
`force` parameter: if `self._mode` is neither the `POSITION` nor the
`IMPEDANCE` instance it raises `ValueError`; otherwise it calls
`self._mode._set_motor_angle(int(convert_to_default_units(angle, "angle")
/ RAD_PER_COUNT))`, and `_set_motor_angle` writes on the mode's own
protocol identifier. -/
def set_motor_angle (s : ActpackState) (angle : ℚ) : StepResult :=
  if s.mode = .POSITION ∨ s.mode = .IMPEDANCE then
    match convert_to_default_units s.units angle .angle with
    | none => { trace := [], result := .error .keyError }
    | some q =>
        { trace := [.sendMotorCommand s.mode (pyInt (q / RAD_PER_COUNT))],
          result := .ok s }
  else { trace := [], result := .error .valueError }

/-! ## Telemetry accessors needed by the claims -/

/-- Property `DephyActpack.q_axis_current` (lines 640-645):
`convert_from_default_units(self._data.mot_cur, "current")`. -/
def q_axis_current (s : ActpackState) : Option ℚ :=
  convert_from_default_units s.units (s.data.mot_cur : ℚ) .current

/-- Property `DephyActpack.motor_torque` as Python actually resolves it: the class
body defines the property twice and the second definition (lines 675-680)
wins: `convert_from_default_units(self.q_axis_current * NM_PER_AMP,
"torque")`. -/
def motor_torque (s : ActpackState) : Option ℚ :=
  (q_axis_current s).bind (fun q =>
    convert_from_default_units s.units (q * NM_PER_AMP) .torque)

/-- The first, shadowed `motor_torque` definition (lines 647-652):
`convert_from_default_units(self._data.mot_cur * NM_PER_MILLIAMP,
"torque")`.  This is the version the spec describes; the second class-body
definition replaces it. -/
def motor_torque_shadowed (s : ActpackState) : Option ℚ :=
  convert_from_default_units s.units
    ((s.data.mot_cur : ℚ) * NM_PER_MILLIAMP) .torque

/-! ## The public operations, as one step function -/

/-- One public operation on the controller.  `update` carries the raw
frame the Device collaborator's `read()` returns; `start` runs
`self._mode.enter()` (its `open`/`start_streaming` calls go to the Device
collaborator and are not motor commands); `stop` runs `close()`. -/
inductive Op
  | update (frame : ActPackFrame)
  | start
  | stop
  | setPositionGains (kp ki kd : ℤ) (force : Bool)
  | setCurrentGains (kp ki ff : ℤ) (force : Bool)
  | setImpedanceGains (kp ki K B ff : ℤ) (force : Bool)
  | setQAxisVoltage (value : ℚ) (force : Bool)
  | setQAxisCurrent (value : ℚ) (force : Bool)
  | setMotorTorque (value : ℚ) (force : Bool)
  | setMotorAngle (value : ℚ)

/-- Run one public operation (hardware.py lines 447-607). -/
def runOp : Op → ActpackState → StepResult
  | .update frame, s => { trace := [], result := .ok { s with data := frame } }
  | .start, s => mode_entry s.mode s
  | .stop, s => { trace := [], result := .ok s }
  | .setPositionGains kp ki kd force, s => set_position_gains s kp ki kd force
  | .setCurrentGains kp ki ff force, s => set_current_gains s kp ki ff force
  | .setImpedanceGains kp ki K B ff force, s =>
      set_impedance_gains s kp ki K B ff force
  | .setQAxisVoltage v force, s => set_q_axis_voltage s v force
  | .setQAxisCurrent v force, s => set_q_axis_current s v force
  | .setMotorTorque v force, s => set_motor_torque s v force
  | .setMotorAngle v, s => set_motor_angle s v

/-! ## Gain bounds and flag preservation -/

/-- The bounds `CurrentMode._set_gains` asserts. -/
abbrev currentGainBounds (kp ki ff : ℤ) : Prop :=
  0 ≤ kp ∧ kp ≤ 80 ∧ 0 ≤ ki ∧ ki ≤ 800 ∧ 0 ≤ ff ∧ ff ≤ 128

/-- The bounds `PositionMode._set_gains` asserts. -/
abbrev positionGainBounds (kp ki kd : ℤ) : Prop :=
  0 ≤ kp ∧ kp ≤ 1000 ∧ 0 ≤ ki ∧ ki ≤ 1000 ∧ 0 ≤ kd ∧ kd ≤ 1000

/-- The bounds `ImpedanceMode._set_gains` asserts. -/
abbrev impedanceGainBounds (kp ki K B ff : ℤ) : Prop :=
  0 ≤ kp ∧ kp ≤ 80 ∧ 0 ≤ ki ∧ ki ≤ 800 ∧ 0 ≤ ff ∧ ff ≤ 128 ∧
    0 ≤ K ∧ 0 ≤ B

/-- A step outcome never clears a `_has_gains` flag that was set in the
starting state. -/
def PreservesFlags (s : ActpackState) (r : StepResult) : Prop :=
  ∀ s', r.result = .ok s' → ∀ m, s.hasGains m = true → s'.hasGains m = true

/-! ## Infrastructure lemmas -/

@[simp] theorem setFlag_units (s : ActpackState) (m : ModeName) :
    (setFlag s m).units = s.units := by cases m <;> rfl

@[simp] theorem setFlag_data (s : ActpackState) (m : ModeName) :
    (setFlag s m).data = s.data := by cases m <;> rfl

@[simp] theorem setFlag_mode (s : ActpackState) (m : ModeName) :
    (setFlag s m).mode = s.mode := by cases m <;> rfl

theorem hasGains_setFlag (s : ActpackState) (m m' : ModeName)
    (h : s.hasGains m' = true) : (setFlag s m).hasGains m' = true := by
  cases m <;> cases m' <;> simp_all [setFlag, ActpackState.hasGains]

/-- Method `CurrentMode._set_gains` on in-bounds coefficients: one `set_gains`
device call with the six values, and the flag becomes true. -/
theorem currentMode_set_gains_ok (s : ActpackState) (kp ki ff : ℤ)
    (h : currentGainBounds kp ki ff) :
    currentMode_set_gains s kp ki ff =
      ⟨[.setGainsCall kp ki 0 0 0 ff], .ok (setFlag s .CURRENT)⟩ := by
  obtain ⟨h1, h2, h3, h4, h5, h6⟩ := h
  simp [currentMode_set_gains, h1, h2, h3, h4, h5, h6]

/-- Method `CurrentMode._set_gains` on out-of-bounds coefficients: the assertion
fails and no device write happens. -/
theorem currentMode_set_gains_err (s : ActpackState) (kp ki ff : ℤ)
    (h : ¬ currentGainBounds kp ki ff) :
    currentMode_set_gains s kp ki ff = ⟨[], .error .assertionError⟩ := by
  by_cases h1 : 0 ≤ kp ∧ kp ≤ 80
  · by_cases h2 : 0 ≤ ki ∧ ki ≤ 800
    · by_cases h3 : 0 ≤ ff ∧ ff ≤ 128
      · exact absurd ⟨h1.1, h1.2, h2.1, h2.2, h3.1, h3.2⟩ h
      · simp [currentMode_set_gains, h1, h2, h3]
    · simp [currentMode_set_gains, h1, h2]
  · simp [currentMode_set_gains, h1]

/-- Method `PositionMode._set_gains` on in-bounds coefficients. -/
theorem positionMode_set_gains_ok (s : ActpackState) (kp ki kd : ℤ)
    (h : positionGainBounds kp ki kd) :
    positionMode_set_gains s kp ki kd =
      ⟨[.setGainsCall kp ki kd 0 0 0], .ok (setFlag s .POSITION)⟩ := by
  obtain ⟨h1, h2, h3, h4, h5, h6⟩ := h
  simp [positionMode_set_gains, h1, h2, h3, h4, h5, h6]

/-- Method `PositionMode._set_gains` on out-of-bounds coefficients. -/
theorem positionMode_set_gains_err (s : ActpackState) (kp ki kd : ℤ)
    (h : ¬ positionGainBounds kp ki kd) :
    positionMode_set_gains s kp ki kd = ⟨[], .error .assertionError⟩ := by
  by_cases h1 : 0 ≤ kp ∧ kp ≤ 1000
  · by_cases h2 : 0 ≤ ki ∧ ki ≤ 1000
    · by_cases h3 : 0 ≤ kd ∧ kd ≤ 1000
      · exact absurd ⟨h1.1, h1.2, h2.1, h2.2, h3.1, h3.2⟩ h
      · simp [positionMode_set_gains, h1, h2, h3]
    · simp [positionMode_set_gains, h1, h2]
  · simp [positionMode_set_gains, h1]

/-- Method `ImpedanceMode._set_gains` on in-bounds coefficients. -/
theorem impedanceMode_set_gains_ok (s : ActpackState) (kp ki K B ff : ℤ)
    (h : impedanceGainBounds kp ki K B ff) :
    impedanceMode_set_gains s kp ki K B ff =
      ⟨[.setGainsCall kp ki 0 K B ff], .ok (setFlag s .IMPEDANCE)⟩ := by
  obtain ⟨h1, h2, h3, h4, h5, h6, h7, h8⟩ := h
  simp [impedanceMode_set_gains, h1, h2, h3, h4, h5, h6, h7, h8]

/-- Method `ImpedanceMode._set_gains` on out-of-bounds coefficients. -/
theorem impedanceMode_set_gains_err (s : ActpackState) (kp ki K B ff : ℤ)
    (h : ¬ impedanceGainBounds kp ki K B ff) :
    impedanceMode_set_gains s kp ki K B ff =
      ⟨[], .error .assertionError⟩ := by
  by_cases h1 : 0 ≤ kp ∧ kp ≤ 80
  · by_cases h2 : 0 ≤ ki ∧ ki ≤ 800
    · by_cases h3 : 0 ≤ ff ∧ ff ≤ 128
      · by_cases h4 : 0 ≤ K
        · by_cases h5 : 0 ≤ B
          · exact absurd ⟨h1.1, h1.2, h2.1, h2.2, h3.1, h3.2, h4, h5⟩ h
          · simp [impedanceMode_set_gains, h1, h2, h3, h4, h5]
        · simp [impedanceMode_set_gains, h1, h2, h3, h4]
      · simp [impedanceMode_set_gains, h1, h2, h3]
    · simp [impedanceMode_set_gains, h1, h2]
  · simp [impedanceMode_set_gains, h1]

/-- Every conversion factor registered in `ALL_UNITS` is positive. -/
theorem ALL_UNITS_factor_pos :
    ∀ c : Category, ∀ p ∈ ALL_UNITS c, 0 < p.2 := by
  intro c
  cases c <;> simp only [ALL_UNITS, List.forall_mem_cons] <;> norm_num

/-- A successful association-list lookup returns a member of the list. -/
theorem lookup_mem {β : Type} :
    ∀ (l : List (String × β)) (u : String) (f : β),
      l.lookup u = some f → (u, f) ∈ l := by
  intro l
  induction l with
  | nil => intro u f h; simp [List.lookup] at h
  | cons p t ih =>
      intro u f h
      rw [List.lookup] at h
      by_cases hu : u == p.1
      · rw [hu] at h
        simp only at h
        cases h
        have : u = p.1 := by exact_mod_cast eq_of_beq hu
        subst this
        exact List.mem_cons_self _ _
      · rw [Bool.not_eq_true] at hu
        rw [hu] at h
        simp only at h
        exact List.mem_cons_of_mem _ (ih u f h)

/-- A factor found through `unitFactor` is positive (hence nonzero). -/
theorem unitFactor_pos {c : Category} {u : String} {f : ℚ}
    (h : unitFactor c u = some f) : 0 < f :=
  ALL_UNITS_factor_pos c (u, f) (lookup_mem _ _ _ h)

/-- C4: for every quantity category, every registered unit selection and
every value, converting to the canonical unit and back with the same
category yields the value exactly (over the exact-rational model of float
arithmetic): the two conversions multiply and divide by the same nonzero
factor. -/
theorem convert_roundtrip (u : UnitsDefinition) (c : Category) (x f : ℚ)
    (h : unitFactor c (u.sel c) = some f) :
    (convert_to_default_units u x c).bind
      (fun y => convert_from_default_units u y c) = some x := by
  have hf : f ≠ 0 := (unitFactor_pos h).ne'
  simp [convert_to_default_units, convert_from_default_units, h,
    mul_div_assoc, div_self hf]

/-- Witness for C4: the round trip at the default torque unit and x = 3. -/
theorem convert_roundtrip_witness :
    (convert_to_default_units DEFAULT_UNITS 3 Category.torque).bind
      (fun y => convert_from_default_units DEFAULT_UNITS y Category.torque)
      = some 3 :=
  convert_roundtrip DEFAULT_UNITS Category.torque 3 1 (by
    norm_num [unitFactor, ALL_UNITS, DEFAULT_UNITS, UnitsDefinition.sel,
      List.lookup])

theorem pyInt_intCast (n : ℤ) : pyInt (n : ℚ) = n := by
  simp [pyInt, Rat.num_intCast, Rat.den_intCast]

theorem RAD_PER_COUNT_ne_zero : RAD_PER_COUNT ≠ 0 := by
  norm_num [RAD_PER_COUNT, np_pi, MOTOR_COUNT_PER_REV]


/-! ## Claim theorems -/

/-- C1 (code bug): at the concrete transition from `VOLTAGE` to `CURRENT`
(from the freshly constructed controller), `transition` does run exactly
one `exit()` of the from-mode followed by exactly one `enter()` of the
to-mode — the trace is the exit's zero-voltage write followed by the
entry's default-gain write and zero-current write — but afterwards the
controller's active mode is still `VOLTAGE`, not `CURRENT`:
`ActpackMode.transition` never reassigns `DephyActpack._mode`. -/
theorem transition_mode_not_updated :
    (ActpackMode_transition (initialState DEFAULT_UNITS ⟨0, 0⟩)
        .VOLTAGE .CURRENT).trace =
      [.sendMotorCommand .VOLTAGE 0, .setGainsCall 40 400 0 0 0 128,
       .sendMotorCommand .CURRENT 0] ∧
    (ActpackMode_transition (initialState DEFAULT_UNITS ⟨0, 0⟩)
        .VOLTAGE .CURRENT).result =
      .ok { mode := .VOLTAGE, flags := ⟨false, false, true, false⟩,
            units := DEFAULT_UNITS, data := ⟨0, 0⟩ } ∧
    ModeName.VOLTAGE ≠ ModeName.CURRENT :=
  ⟨rfl, rfl, by decide⟩

/-- C2 (code bug): from `VOLTAGE` mode, `set_q_axis_current(2, force=False)`
raises the wrong-mode `ValueError` with no device write; but
`set_q_axis_current(2, force=True)` — which the claim says transitions to
`CURRENT` and then writes the converted command (2 mA with default units)
— instead performs the transition's exit/entry writes and then raises
`AttributeError`, because the controller's `_mode` still references the
`VoltageMode` object, which has no `_set_qaxis_current`; the converted
current command is never sent. -/
theorem set_q_axis_current_force_bug :
    (set_q_axis_current (initialState DEFAULT_UNITS ⟨0, 0⟩) 2 false).trace
        = [] ∧
    (set_q_axis_current (initialState DEFAULT_UNITS ⟨0, 0⟩) 2 false).result
        = .error .valueError ∧
    (set_q_axis_current (initialState DEFAULT_UNITS ⟨0, 0⟩) 2 true).result
        = .error .attributeError ∧
    (set_q_axis_current (initialState DEFAULT_UNITS ⟨0, 0⟩) 2 true).trace
        = [.sendMotorCommand .VOLTAGE 0, .setGainsCall 40 400 0 0 0 128,
           .sendMotorCommand .CURRENT 0] :=
  ⟨rfl, rfl, rfl, rfl⟩

/-- C7 (code bug): with the default units selection and a raw frame whose
motor current is 1000 (milliamps), the effective `motor_torque` property
(the second class-body definition, which shadows the first) returns
`113.3`, while the conversion the claim describes — and the shadowed first
definition computes — returns `0.1133 = 1000 * NM_PER_MILLIAMP`. -/
theorem motor_torque_shadowing_bug :
    motor_torque (initialState DEFAULT_UNITS ⟨0, 1000⟩) = some (1133 / 10) ∧
    motor_torque_shadowed (initialState DEFAULT_UNITS ⟨0, 1000⟩)
        = some (1133 / 10000) ∧
    (1133 / 10 : ℚ) ≠ 1133 / 10000 := by
  refine ⟨?_, ?_, by norm_num⟩ <;>
    norm_num [motor_torque, motor_torque_shadowed, q_axis_current,
      convert_from_default_units, unitFactor, ALL_UNITS, DEFAULT_UNITS,
      UnitsDefinition.sel, List.lookup, NM_PER_AMP, NM_PER_MILLIAMP,
      initialState]

/-- C3 (counterexample): the claim quantifies over every gain-setting
call, but a call made from a non-matching mode with `force = true`
(the source default) breaks it: from `VOLTAGE` mode,
`set_current_gains(kp=81, ki=0, ff=0)` neither fails with `InvalidGains`
nor leaves the device unwritten — the forced transition writes the
exit zero-voltage command, the entry default gains and the entry
zero-current command, and the call then raises `AttributeError` (the
stale `_mode` is the `VoltageMode` object, which has no `_set_gains`). -/
theorem set_current_gains_forced_counterexample :
    (set_current_gains (initialState DEFAULT_UNITS ⟨0, 0⟩) 81 0 0
        true).result = .error .attributeError ∧
    (set_current_gains (initialState DEFAULT_UNITS ⟨0, 0⟩) 81 0 0
        true).trace =
      [.sendMotorCommand .VOLTAGE 0, .setGainsCall 40 400 0 0 0 128,
       .sendMotorCommand .CURRENT 0] :=
  ⟨rfl, rfl⟩

/-- C3 (amended): for every gain-setting call (current, position or
impedance gains) made while the controller is already in the matching
mode, if any supplied coefficient violates that mode's bounds the call
fails with `InvalidGains` (an `AssertionError`) and the device is never
written; if all bounds hold, the six coefficients are sent to the device
in one single call and that mode's `has_gains` flag becomes true. -/
theorem set_gains_in_matching_mode (s : ActpackState)
    (kp ki kd K B ff : ℤ) (force : Bool) :
    (s.mode = .CURRENT →
      (¬ currentGainBounds kp ki ff →
        set_current_gains s kp ki ff force =
          ⟨[], .error .assertionError⟩) ∧
      (currentGainBounds kp ki ff →
        set_current_gains s kp ki ff force =
          ⟨[.setGainsCall kp ki 0 0 0 ff], .ok (setFlag s .CURRENT)⟩ ∧
        (setFlag s .CURRENT).hasGains .CURRENT = true)) ∧
    (s.mode = .POSITION →
      (¬ positionGainBounds kp ki kd →
        set_position_gains s kp ki kd force =
          ⟨[], .error .assertionError⟩) ∧
      (positionGainBounds kp ki kd →
        set_position_gains s kp ki kd force =
          ⟨[.setGainsCall kp ki kd 0 0 0], .ok (setFlag s .POSITION)⟩ ∧
        (setFlag s .POSITION).hasGains .POSITION = true)) ∧
    (s.mode = .IMPEDANCE →
      (¬ impedanceGainBounds kp ki K B ff →
        set_impedance_gains s kp ki K B ff force =
          ⟨[], .error .assertionError⟩) ∧
      (impedanceGainBounds kp ki K B ff →
        set_impedance_gains s kp ki K B ff force =
          ⟨[.setGainsCall kp ki 0 K B ff], .ok (setFlag s .IMPEDANCE)⟩ ∧
        (setFlag s .IMPEDANCE).hasGains .IMPEDANCE = true)) := by
  refine ⟨fun hm => ⟨fun hb => ?_, fun hb => ⟨?_, ?_⟩⟩,
    fun hm => ⟨fun hb => ?_, fun hb => ⟨?_, ?_⟩⟩,
    fun hm => ⟨fun hb => ?_, fun hb => ⟨?_, ?_⟩⟩⟩
  · simp [set_current_gains, hm, mode_set_gains_kp_ki_ff,
      currentMode_set_gains_err s kp ki ff hb]
  · simp [set_current_gains, hm, mode_set_gains_kp_ki_ff,
      currentMode_set_gains_ok s kp ki ff hb]
  · simp [setFlag, ActpackState.hasGains]
  · simp [set_position_gains, hm, mode_set_gains_kp_ki_kd,
      positionMode_set_gains_err s kp ki kd hb]
  · simp [set_position_gains, hm, mode_set_gains_kp_ki_kd,
      positionMode_set_gains_ok s kp ki kd hb]
  · simp [setFlag, ActpackState.hasGains]
  · simp [set_impedance_gains, hm, mode_set_gains_full,
      impedanceMode_set_gains_err s kp ki K B ff hb]
  · simp [set_impedance_gains, hm, mode_set_gains_full,
      impedanceMode_set_gains_ok s kp ki K B ff hb]
  · simp [setFlag, ActpackState.hasGains]

/-- Witness for the amended C3: in `CURRENT` mode,
`set_current_gains(40, 400, 128)` sends the six gains in one call and
sets the flag. -/
theorem set_gains_in_matching_mode_witness :
    set_current_gains
        ⟨.CURRENT, ⟨false, false, false, false⟩, DEFAULT_UNITS, ⟨0, 0⟩⟩
        40 400 128 true =
      ⟨[.setGainsCall 40 400 0 0 0 128],
       .ok (setFlag
         ⟨.CURRENT, ⟨false, false, false, false⟩, DEFAULT_UNITS, ⟨0, 0⟩⟩
         .CURRENT)⟩ :=
  (((set_gains_in_matching_mode
      ⟨.CURRENT, ⟨false, false, false, false⟩, DEFAULT_UNITS, ⟨0, 0⟩⟩
      40 400 0 0 0 128 true).1 rfl).2 (by decide)).1

/-- C10: the built-in default gain constants satisfy their own mode's
bounds, so the lazy application of defaults at a first entry (when
`has_gains` is false) never fails the assertions and always reaches the
`set_gains` device write (it is the first device write of the entry). -/
theorem default_gains_in_bounds (s : ActpackState) :
    currentGainBounds DEFAULT_CURRENT_GAINS.kp DEFAULT_CURRENT_GAINS.ki
      DEFAULT_CURRENT_GAINS.ff ∧
    positionGainBounds DEFAULT_POSITION_GAINS.kp DEFAULT_POSITION_GAINS.ki
      DEFAULT_POSITION_GAINS.kd ∧
    impedanceGainBounds DEFAULT_IMPEDANCE_GAINS.kp
      DEFAULT_IMPEDANCE_GAINS.ki DEFAULT_IMPEDANCE_GAINS.K
      DEFAULT_IMPEDANCE_GAINS.B DEFAULT_IMPEDANCE_GAINS.ff ∧
    (s.hasGains .CURRENT = false →
      (currentMode_entry s).trace =
        [.setGainsCall 40 400 0 0 0 128, .sendMotorCommand .CURRENT 0] ∧
      (currentMode_entry s).result = .ok (setFlag s .CURRENT)) ∧
    (s.hasGains .POSITION = false →
      (positionMode_entry s).trace.head? =
        some (.setGainsCall 200 50 0 0 0 0)) ∧
    (s.hasGains .IMPEDANCE = false →
      (impedanceMode_entry s).trace.head? =
        some (.setGainsCall 40 400 0 300 1600 128)) := by
  refine ⟨by decide, by decide, by decide,
    fun h => ?_, fun h => ?_, fun h => ?_⟩
  · have hg := currentMode_set_gains_ok s 40 400 128 (by decide)
    simp [currentMode_entry, h, DEFAULT_CURRENT_GAINS, hg]
  · have hg := positionMode_set_gains_ok s 200 50 0 (by decide)
    cases hrc : rehomeCommand (setFlag s .POSITION) <;>
      simp [positionMode_entry, h, DEFAULT_POSITION_GAINS, hg, hrc]
  · have hg := impedanceMode_set_gains_ok s 40 400 300 1600 128
      (by decide)
    cases hrc : rehomeCommand (setFlag s .IMPEDANCE) <;>
      simp [impedanceMode_entry, h, DEFAULT_IMPEDANCE_GAINS, hg, hrc]

/-- Witness for C10: first entry into `CURRENT` mode from the fresh
controller writes the default gains and then the zero-current command. -/
theorem default_gains_in_bounds_witness :
    (currentMode_entry (initialState DEFAULT_UNITS ⟨0, 0⟩)).trace =
      [.setGainsCall 40 400 0 0 0 128, .sendMotorCommand .CURRENT 0] :=
  ((default_gains_in_bounds (initialState DEFAULT_UNITS ⟨0, 0⟩)).2.2.2.1
    rfl).1

/-- When the selected angle unit is registered, the re-homing command is
exactly the raw motor angle counts of the latest frame: the unit factor
and `RAD_PER_COUNT` cancel exactly over exact arithmetic. -/
theorem rehomeCommand_eq (s : ActpackState) (f : ℚ)
    (h : unitFactor .angle (s.units.sel .angle) = some f) :
    rehomeCommand s = some s.data.mot_ang := by
  have hf : f ≠ 0 := (unitFactor_pos h).ne'
  have hR : RAD_PER_COUNT ≠ 0 := RAD_PER_COUNT_ne_zero
  simp only [rehomeCommand, motor_angle, convert_from_default_units,
    convert_to_default_units, h, Option.map_some', Option.some_bind]
  rw [div_mul_cancel₀ _ hf, mul_div_cancel_right₀ _ hR, pyInt_intCast]

/-- C5: entering Position mode sends, as its position command, the
currently measured motor angle converted to encoder counts — which is
exactly the raw angle-count field of the latest telemetry frame (the
integer truncation of the raw counts), not zero.  The command follows the
default-gains write when `has_gains` is still false. -/
theorem positionMode_entry_rehomes (s : ActpackState) (f : ℚ)
    (h : unitFactor .angle (s.units.sel .angle) = some f) :
    (positionMode_entry s).trace =
      (if s.hasGains .POSITION = true then []
       else [.setGainsCall 200 50 0 0 0 0]) ++
        [.sendMotorCommand .POSITION s.data.mot_ang] := by
  by_cases hg : s.hasGains .POSITION = true
  · have hrc : rehomeCommand s = some s.data.mot_ang :=
      rehomeCommand_eq s f h
    simp [positionMode_entry, hg, hrc]
  · have hsg := positionMode_set_gains_ok s 200 50 0 (by decide)
    have hrc : rehomeCommand (setFlag s .POSITION)
        = some s.data.mot_ang := by
      have := rehomeCommand_eq (setFlag s .POSITION) f (by simpa using h)
      simpa using this
    simp [positionMode_entry, hg, DEFAULT_POSITION_GAINS, hsg, hrc]

/-- Witness for C5: a fresh controller whose frame reads motor angle 7
counts re-homes Position mode to command 7, after the default gains. -/
theorem positionMode_entry_rehomes_witness :
    (positionMode_entry (initialState DEFAULT_UNITS ⟨7, 0⟩)).trace =
      [.setGainsCall 200 50 0 0 0 0, .sendMotorCommand .POSITION 7] := by
  have := positionMode_entry_rehomes (initialState DEFAULT_UNITS ⟨7, 0⟩) 1
    (by norm_num [unitFactor, ALL_UNITS, DEFAULT_UNITS,
      UnitsDefinition.sel, List.lookup, initialState])
  simpa [initialState, ActpackState.hasGains] using this

/-- C6: for every transition whose source mode is Current, Position or
Impedance, the source's `exit()` issues exactly the zero q-axis voltage
command, and in the transition's device-call sequence that command
immediately precedes the destination entry's commands (the entry runs on
the unchanged controller state, exits having no state effect). -/
theorem exit_zero_voltage_then_entry (s : ActpackState)
    (fromMode toMode : ModeName)
    (h : fromMode = .CURRENT ∨ fromMode = .POSITION ∨
      fromMode = .IMPEDANCE) :
    (mode_exit fromMode s).trace = [.sendMotorCommand .VOLTAGE 0] ∧
    (ActpackMode_transition s fromMode toMode).trace =
      .sendMotorCommand .VOLTAGE 0 :: (mode_entry toMode s).trace := by
  rcases h with rfl | rfl | rfl <;>
    exact ⟨rfl, by simp [ActpackMode_transition, mode_exit]⟩

/-- Witness for C6: exiting Current into Voltage mode from the fresh
controller. -/
theorem exit_zero_voltage_then_entry_witness :
    (mode_exit .CURRENT (initialState DEFAULT_UNITS ⟨0, 0⟩)).trace =
      [.sendMotorCommand .VOLTAGE 0] ∧
    (ActpackMode_transition (initialState DEFAULT_UNITS ⟨0, 0⟩)
        .CURRENT .VOLTAGE).trace =
      .sendMotorCommand .VOLTAGE 0 ::
        (mode_entry .VOLTAGE (initialState DEFAULT_UNITS ⟨0, 0⟩)).trace :=
  exit_zero_voltage_then_entry (initialState DEFAULT_UNITS ⟨0, 0⟩)
    .CURRENT .VOLTAGE (Or.inl rfl)

/-- C8: `set_motor_angle` (which takes no `force` parameter in the
source, so no argument can alter this) fails with the wrong-mode
`ValueError` — performing no transition and no device write — whenever
the active mode is neither Position nor Impedance; in Position or
Impedance mode it sends the angle converted from the selected angle unit
to canonical radians (multiplication by the registered factor) and then
to integer encoder counts (division by `RAD_PER_COUNT` and `int`
truncation), leaving the state unchanged. -/
theorem set_motor_angle_spec (s : ActpackState) (angle f : ℚ)
    (h : unitFactor .angle (s.units.sel .angle) = some f) :
    ((s.mode ≠ .POSITION ∧ s.mode ≠ .IMPEDANCE) →
      set_motor_angle s angle = ⟨[], .error .valueError⟩) ∧
    ((s.mode = .POSITION ∨ s.mode = .IMPEDANCE) →
      set_motor_angle s angle =
        ⟨[.sendMotorCommand s.mode (pyInt (angle * f / RAD_PER_COUNT))],
         .ok s⟩) := by
  constructor
  · intro hm
    simp [set_motor_angle, hm.1, hm.2]
  · intro hm
    simp [set_motor_angle, hm, convert_to_default_units, h]

/-- Witness for C8: in the initial (Voltage) mode the call fails with the
wrong-mode error and writes nothing. -/
theorem set_motor_angle_spec_witness :
    set_motor_angle (initialState DEFAULT_UNITS ⟨0, 0⟩) 1 =
      ⟨[], .error .valueError⟩ :=
  (set_motor_angle_spec (initialState DEFAULT_UNITS ⟨0, 0⟩) 1 1
    (by norm_num [unitFactor, ALL_UNITS, DEFAULT_UNITS,
      UnitsDefinition.sel, List.lookup, initialState])).1
    (by constructor <;> simp [initialState])

/-! ## Flag preservation lemmas for C9 -/

theorem preserves_currentMode_set_gains (s : ActpackState) (kp ki ff : ℤ) :
    PreservesFlags s (currentMode_set_gains s kp ki ff) := by
  intro s' h m hm
  by_cases hb : currentGainBounds kp ki ff
  · rw [currentMode_set_gains_ok s kp ki ff hb] at h
    simp at h
    exact h ▸ hasGains_setFlag s .CURRENT m hm
  · rw [currentMode_set_gains_err s kp ki ff hb] at h
    simp at h

theorem preserves_positionMode_set_gains (s : ActpackState) (kp ki kd : ℤ) :
    PreservesFlags s (positionMode_set_gains s kp ki kd) := by
  intro s' h m hm
  by_cases hb : positionGainBounds kp ki kd
  · rw [positionMode_set_gains_ok s kp ki kd hb] at h
    simp at h
    exact h ▸ hasGains_setFlag s .POSITION m hm
  · rw [positionMode_set_gains_err s kp ki kd hb] at h
    simp at h

theorem preserves_impedanceMode_set_gains (s : ActpackState)
    (kp ki K B ff : ℤ) :
    PreservesFlags s (impedanceMode_set_gains s kp ki K B ff) := by
  intro s' h m hm
  by_cases hb : impedanceGainBounds kp ki K B ff
  · rw [impedanceMode_set_gains_ok s kp ki K B ff hb] at h
    simp at h
    exact h ▸ hasGains_setFlag s .IMPEDANCE m hm
  · rw [impedanceMode_set_gains_err s kp ki K B ff hb] at h
    simp at h

theorem preserves_mode_set_gains_kp_ki_ff (mn : ModeName)
    (s : ActpackState) (kp ki ff : ℤ) :
    PreservesFlags s (mode_set_gains_kp_ki_ff mn s kp ki ff) := by
  intro s' h m hm
  cases mn with
  | VOLTAGE => simp [mode_set_gains_kp_ki_ff] at h
  | CURRENT => exact preserves_currentMode_set_gains s kp ki ff s' h m hm
  | POSITION => simp [mode_set_gains_kp_ki_ff] at h
  | IMPEDANCE =>
      exact preserves_impedanceMode_set_gains s kp ki
        DEFAULT_IMPEDANCE_GAINS.K DEFAULT_IMPEDANCE_GAINS.B ff s' h m hm

theorem preserves_mode_set_gains_kp_ki_kd (mn : ModeName)
    (s : ActpackState) (kp ki kd : ℤ) :
    PreservesFlags s (mode_set_gains_kp_ki_kd mn s kp ki kd) := by
  intro s' h m hm
  cases mn with
  | VOLTAGE => simp [mode_set_gains_kp_ki_kd] at h
  | CURRENT => simp [mode_set_gains_kp_ki_kd] at h
  | POSITION => exact preserves_positionMode_set_gains s kp ki kd s' h m hm
  | IMPEDANCE => simp [mode_set_gains_kp_ki_kd] at h

theorem preserves_mode_set_gains_full (mn : ModeName) (s : ActpackState)
    (kp ki K B ff : ℤ) :
    PreservesFlags s (mode_set_gains_full mn s kp ki K B ff) := by
  intro s' h m hm
  cases mn with
  | VOLTAGE => simp [mode_set_gains_full] at h
  | CURRENT => simp [mode_set_gains_full] at h
  | POSITION => simp [mode_set_gains_full] at h
  | IMPEDANCE =>
      exact preserves_impedanceMode_set_gains s kp ki K B ff s' h m hm

theorem preserves_mode_entry (mn : ModeName) (s : ActpackState) :
    PreservesFlags s (mode_entry mn s) := by
  intro s' h m hm
  cases mn with
  | VOLTAGE =>
      simp [mode_entry, voltageMode_entry] at h
      exact h ▸ hm
  | CURRENT =>
      by_cases hg : s.hasGains .CURRENT = true
      · simp [mode_entry, currentMode_entry, hg] at h
        exact h ▸ hm
      · have hsg := currentMode_set_gains_ok s 40 400 128 (by decide)
        simp [mode_entry, currentMode_entry, hg, DEFAULT_CURRENT_GAINS,
          hsg] at h
        exact h ▸ hasGains_setFlag s .CURRENT m hm
  | POSITION =>
      by_cases hg : s.hasGains .POSITION = true
      · cases hrc : rehomeCommand s with
        | none => simp [mode_entry, positionMode_entry, hg, hrc] at h
        | some v =>
            simp [mode_entry, positionMode_entry, hg, hrc] at h
            exact h ▸ hm
      · have hsg := positionMode_set_gains_ok s 200 50 0 (by decide)
        cases hrc : rehomeCommand (setFlag s .POSITION) with
        | none =>
            simp [mode_entry, positionMode_entry, hg,
              DEFAULT_POSITION_GAINS, hsg, hrc] at h
        | some v =>
            simp [mode_entry, positionMode_entry, hg,
              DEFAULT_POSITION_GAINS, hsg, hrc] at h
            exact h ▸ hasGains_setFlag s .POSITION m hm
  | IMPEDANCE =>
      by_cases hg : s.hasGains .IMPEDANCE = true
      · cases hrc : rehomeCommand s with
        | none => simp [mode_entry, impedanceMode_entry, hg, hrc] at h
        | some v =>
            simp [mode_entry, impedanceMode_entry, hg, hrc] at h
            exact h ▸ hm
      · have hsg := impedanceMode_set_gains_ok s 40 400 300 1600 128
          (by decide)
        cases hrc : rehomeCommand (setFlag s .IMPEDANCE) with
        | none =>
            simp [mode_entry, impedanceMode_entry, hg,
              DEFAULT_IMPEDANCE_GAINS, hsg, hrc] at h
        | some v =>
            simp [mode_entry, impedanceMode_entry, hg,
              DEFAULT_IMPEDANCE_GAINS, hsg, hrc] at h
            exact h ▸ hasGains_setFlag s .IMPEDANCE m hm

theorem mode_exit_eq (mn : ModeName) (s : ActpackState) :
    mode_exit mn s = ⟨[.sendMotorCommand .VOLTAGE 0], .ok s⟩ := by
  cases mn <;> rfl

theorem preserves_transition (s : ActpackState) (fromMode toMode : ModeName) :
    PreservesFlags s (ActpackMode_transition s fromMode toMode) := by
  intro s' h m hm
  simp only [ActpackMode_transition, mode_exit_eq] at h
  exact preserves_mode_entry toMode s s' h m hm

theorem preserves_set_current_gains (s : ActpackState) (kp ki ff : ℤ)
    (force : Bool) :
    PreservesFlags s (set_current_gains s kp ki ff force) := by
  intro s' h m hm
  by_cases hc : s.mode = .CURRENT
  · simp only [set_current_gains, hc, if_true, eq_self_iff_true] at h
    exact preserves_mode_set_gains_kp_ki_ff .CURRENT s kp ki ff s' h m hm
  · simp only [set_current_gains, if_neg hc] at h
    cases force with
    | false => simp at h
    | true =>
        simp only [if_true] at h
        cases hr : (ActpackMode_transition s s.mode .CURRENT).result with
        | error e => rw [hr] at h; simp at h
        | ok s1 =>
            rw [hr] at h
            simp at h
            exact preserves_mode_set_gains_kp_ki_ff s1.mode s1 kp ki ff s'
              h m (preserves_transition s s.mode .CURRENT s1 hr m hm)

theorem preserves_set_position_gains (s : ActpackState) (kp ki kd : ℤ)
    (force : Bool) :
    PreservesFlags s (set_position_gains s kp ki kd force) := by
  intro s' h m hm
  by_cases hc : s.mode = .POSITION
  · simp only [set_position_gains, hc, if_true, eq_self_iff_true] at h
    exact preserves_mode_set_gains_kp_ki_kd .POSITION s kp ki kd s' h m hm
  · simp only [set_position_gains, if_neg hc] at h
    cases force with
    | false => simp at h
    | true =>
        simp only [if_true] at h
        cases hr : (ActpackMode_transition s s.mode .POSITION).result with
        | error e => rw [hr] at h; simp at h
        | ok s1 =>
            rw [hr] at h
            simp at h
            exact preserves_mode_set_gains_kp_ki_kd s1.mode s1 kp ki kd s'
              h m (preserves_transition s s.mode .POSITION s1 hr m hm)

theorem preserves_set_impedance_gains (s : ActpackState)
    (kp ki K B ff : ℤ) (force : Bool) :
    PreservesFlags s (set_impedance_gains s kp ki K B ff force) := by
  intro s' h m hm
  by_cases hc : s.mode = .IMPEDANCE
  · simp only [set_impedance_gains, hc, if_true, eq_self_iff_true] at h
    exact preserves_mode_set_gains_full .IMPEDANCE s kp ki K B ff s' h m hm
  · simp only [set_impedance_gains, if_neg hc] at h
    cases force with
    | false => simp at h
    | true =>
        simp only [if_true] at h
        cases hr : (ActpackMode_transition s s.mode .IMPEDANCE).result with
        | error e => rw [hr] at h; simp at h
        | ok s1 =>
            rw [hr] at h
            simp at h
            exact preserves_mode_set_gains_full s1.mode s1 kp ki K B ff s'
              h m (preserves_transition s s.mode .IMPEDANCE s1 hr m hm)

theorem preserves_stmt_set_qaxis_voltage (s1 : ActpackState) (v : ℚ) :
    PreservesFlags s1 (stmt_set_qaxis_voltage s1 v) := by
  intro s' h m hm
  cases hs1 : s1.mode with
  | VOLTAGE =>
      cases hcv : convert_to_default_units s1.units v Category.voltage with
      | none => simp [stmt_set_qaxis_voltage, hs1, hcv] at h
      | some q =>
          simp [stmt_set_qaxis_voltage, hs1, hcv] at h
          exact h ▸ hm
  | CURRENT => simp [stmt_set_qaxis_voltage, hs1] at h
  | POSITION => simp [stmt_set_qaxis_voltage, hs1] at h
  | IMPEDANCE => simp [stmt_set_qaxis_voltage, hs1] at h

theorem preserves_stmt_set_qaxis_current (s1 : ActpackState) (v : ℚ) :
    PreservesFlags s1 (stmt_set_qaxis_current s1 v) := by
  intro s' h m hm
  cases hs1 : s1.mode with
  | CURRENT =>
      cases hcv : convert_to_default_units s1.units v Category.current with
      | none => simp [stmt_set_qaxis_current, hs1, hcv] at h
      | some q =>
          simp [stmt_set_qaxis_current, hs1, hcv] at h
          exact h ▸ hm
  | VOLTAGE => simp [stmt_set_qaxis_current, hs1] at h
  | POSITION => simp [stmt_set_qaxis_current, hs1] at h
  | IMPEDANCE => simp [stmt_set_qaxis_current, hs1] at h

theorem preserves_stmt_set_qaxis_current_torque (s1 : ActpackState)
    (v : ℚ) :
    PreservesFlags s1 (stmt_set_qaxis_current_torque s1 v) := by
  intro s' h m hm
  cases hs1 : s1.mode with
  | CURRENT =>
      cases hcv : convert_to_default_units s1.units v Category.torque with
      | none => simp [stmt_set_qaxis_current_torque, hs1, hcv] at h
      | some q =>
          simp [stmt_set_qaxis_current_torque, hs1, hcv] at h
          exact h ▸ hm
  | VOLTAGE => simp [stmt_set_qaxis_current_torque, hs1] at h
  | POSITION => simp [stmt_set_qaxis_current_torque, hs1] at h
  | IMPEDANCE => simp [stmt_set_qaxis_current_torque, hs1] at h

theorem preserves_set_q_axis_voltage (s : ActpackState) (v : ℚ)
    (force : Bool) :
    PreservesFlags s (set_q_axis_voltage s v force) := by
  intro s' h m hm
  by_cases hc : s.mode = .VOLTAGE
  · simp only [set_q_axis_voltage, hc, if_true, eq_self_iff_true] at h
    exact preserves_stmt_set_qaxis_voltage s v s' h m hm
  · simp only [set_q_axis_voltage, if_neg hc] at h
    cases force with
    | false => simp at h
    | true =>
        simp only [if_true] at h
        cases hr : (ActpackMode_transition s s.mode .VOLTAGE).result with
        | error e => rw [hr] at h; simp at h
        | ok s1 =>
            rw [hr] at h
            simp at h
            exact preserves_stmt_set_qaxis_voltage s1 v s' h m
              (preserves_transition s s.mode .VOLTAGE s1 hr m hm)

theorem preserves_set_q_axis_current (s : ActpackState) (v : ℚ)
    (force : Bool) :
    PreservesFlags s (set_q_axis_current s v force) := by
  intro s' h m hm
  by_cases hc : s.mode = .CURRENT
  · simp only [set_q_axis_current, hc, if_true, eq_self_iff_true] at h
    exact preserves_stmt_set_qaxis_current s v s' h m hm
  · simp only [set_q_axis_current, if_neg hc] at h
    cases force with
    | false => simp at h
    | true =>
        simp only [if_true] at h
        cases hr : (ActpackMode_transition s s.mode .CURRENT).result with
        | error e => rw [hr] at h; simp at h
        | ok s1 =>
            rw [hr] at h
            simp at h
            exact preserves_stmt_set_qaxis_current s1 v s' h m
              (preserves_transition s s.mode .CURRENT s1 hr m hm)

theorem preserves_set_motor_torque (s : ActpackState) (v : ℚ)
    (force : Bool) :
    PreservesFlags s (set_motor_torque s v force) := by
  intro s' h m hm
  by_cases hc : s.mode = .CURRENT
  · simp only [set_motor_torque, hc, if_true, eq_self_iff_true] at h
    exact preserves_stmt_set_qaxis_current_torque s v s' h m hm
  · simp only [set_motor_torque, if_neg hc] at h
    cases force with
    | false => simp at h
    | true =>
        simp only [if_true] at h
        cases hr : (ActpackMode_transition s s.mode .CURRENT).result with
        | error e => rw [hr] at h; simp at h
        | ok s1 =>
            rw [hr] at h
            simp at h
            exact preserves_stmt_set_qaxis_current_torque s1 v s' h m
              (preserves_transition s s.mode .CURRENT s1 hr m hm)

theorem preserves_set_motor_angle (s : ActpackState) (v : ℚ) :
    PreservesFlags s (set_motor_angle s v) := by
  intro s' h m hm
  by_cases hc : s.mode = .POSITION ∨ s.mode = .IMPEDANCE
  · simp only [set_motor_angle, hc, if_true, eq_self_iff_true] at h
    cases hcv : convert_to_default_units s.units v Category.angle with
    | none => rw [hcv] at h; simp at h
    | some q =>
        rw [hcv] at h
        simp at h
        exact h ▸ hm
  · simp [set_motor_angle, hc] at h

/-- C9: the `has_gains` flag of every mode instance is monotone — no
public operation ever sets it back to false — and re-entering a mode
whose flag is already true performs no `set_gains` device write (defaults
are applied at entry only when the flag is false). -/
theorem hasGains_never_cleared :
    (∀ (op : Op) (s s' : ActpackState), (runOp op s).result = .ok s' →
      ∀ mn, s.hasGains mn = true → s'.hasGains mn = true) ∧
    (∀ (mn : ModeName) (s : ActpackState), s.hasGains mn = true →
      ∀ call ∈ (mode_entry mn s).trace, call.isGainWrite = false) := by
  constructor
  · intro op s s' h
    cases op with
    | update frame =>
        simp [runOp] at h
        intro mn hm
        rw [← h]
        cases mn <;> exact hm
    | start => exact preserves_mode_entry s.mode s s' h
    | stop =>
        simp [runOp] at h
        intro mn hm
        rw [← h]
        exact hm
    | setPositionGains kp ki kd force =>
        exact preserves_set_position_gains s kp ki kd force s' h
    | setCurrentGains kp ki ff force =>
        exact preserves_set_current_gains s kp ki ff force s' h
    | setImpedanceGains kp ki K B ff force =>
        exact preserves_set_impedance_gains s kp ki K B ff force s' h
    | setQAxisVoltage v force =>
        exact preserves_set_q_axis_voltage s v force s' h
    | setQAxisCurrent v force =>
        exact preserves_set_q_axis_current s v force s' h
    | setMotorTorque v force =>
        exact preserves_set_motor_torque s v force s' h
    | setMotorAngle v => exact preserves_set_motor_angle s v s' h
  · intro mn s hg call hc
    cases mn with
    | VOLTAGE => simp [mode_entry, voltageMode_entry] at hc
    | CURRENT =>
        simp [mode_entry, currentMode_entry, hg] at hc
        subst hc
        rfl
    | POSITION =>
        cases hrc : rehomeCommand s with
        | none => simp [mode_entry, positionMode_entry, hg, hrc] at hc
        | some v =>
            simp [mode_entry, positionMode_entry, hg, hrc] at hc
            subst hc
            rfl
    | IMPEDANCE =>
        cases hrc : rehomeCommand s with
        | none => simp [mode_entry, impedanceMode_entry, hg, hrc] at hc
        | some v =>
            simp [mode_entry, impedanceMode_entry, hg, hrc] at hc
            subst hc
            rfl

/-- Witness for C9: the flag set in `CURRENT` mode survives an `update`
replacing the whole frame. -/
theorem hasGains_never_cleared_witness :
    (setFlag (initialState DEFAULT_UNITS ⟨1, 2⟩) .CURRENT).hasGains
      .CURRENT = true :=
  hasGains_never_cleared.1 (Op.update ⟨1, 2⟩)
    (setFlag (initialState DEFAULT_UNITS ⟨0, 0⟩) .CURRENT)
    (setFlag (initialState DEFAULT_UNITS ⟨1, 2⟩) .CURRENT) rfl
    .CURRENT rfl

end OpenSourceLeg
